import Mathlib

/-!
The volume commands of osdsctl.

A shallow embedding of `osdsctl/cli/volume.go`: the six cobra handlers
`volumeAction`, `volumeCreateAction`, `volumeShowAction`, `volumeListAction`,
`volumeDeleteAction` and `volumeUpdateAction`.

A handler is a program over an explicit `World` (what has been written to the
error stream, what has been written to standard output, which client calls have
been made) that either returns or ends the process through `os.Exit`.
The package-level flag variables and the package-level `client` are passed in
as a `Globals` record.
-/

namespace Osdsctl

/-! ## Go standard library: `strconv` -/

/-- Size of the Go `int` type on the platform the binary is built for. -/
inductive Platform where
  | bits32
  | bits64
deriving DecidableEq, Repr

/-- The constant `strconv.IntSize`. -/
def Platform.IntSize : Platform → Nat
  | .bits32 => 32
  | .bits64 => 64

/-- The two sentinel errors of `strconv`. -/
inductive ErrKind where
  | ErrSyntax
  | ErrRange
deriving DecidableEq, Repr

/-- The error type `*strconv.NumError`. -/
structure NumError where
  Func : String
  Num : String
  Err : ErrKind
deriving DecidableEq, Repr

/-- The digit test of `strconv.ParseUint` in base 10: a byte in `'0'..'9'` has the
value `c - '0'`; every other byte (letters have a value of at least 10, the
underscore is only allowed for base 0) is a syntax error. -/
def digitValue (c : Char) : Option Nat :=
  if '0' ≤ c ∧ c ≤ '9' then some (c.toNat - '0'.toNat) else none

/-- The scanning loop of `strconv.ParseUint(s, 10, bitSize)` over the remaining
bytes, with the accumulator `n : uint64`; `maxVal = 1<<bitSize - 1`.
The three overflow tests of the library are kept: `n >= cutoff` (then `n*10`
overflows 64 bits), `n1 < n` (the addition wrapped) and `n1 > maxVal`. -/
def parseUintLoop (maxVal : Nat) : List Char → Nat → Except ErrKind Nat
  | [], n => .ok n
  | c :: cs, n =>
    match digitValue c with
    | none => .error .ErrSyntax
    | some d =>
      if n ≥ (2 ^ 64 - 1) / 10 + 1 then .error .ErrRange
      else
        let n10 := n * 10
        let n1 := (n10 + d) % 2 ^ 64
        if n1 < n10 ∨ n1 > maxVal then .error .ErrRange
        else parseUintLoop maxVal cs n1

/-- The function `strconv.ParseUint(s, 10, bitSize)` with `bitSize` already
resolved to a number of bits: the empty string is a syntax error. -/
def ParseUint (s : List Char) (bitSize : Nat) : Except ErrKind Nat :=
  if s = [] then .error .ErrSyntax
  else parseUintLoop (2 ^ bitSize - 1) s 0

/-- The function `strconv.ParseInt(s, 10, 0)`: an optional sign, then
`ParseUint`, then the range test against `cutoff = 1 << (IntSize-1)`.
A range error of `ParseUint` leaves `un = maxVal`, which the cutoff test turns
into a range error of `ParseInt`. -/
def ParseInt (p : Platform) (s : List Char) : Except ErrKind Int :=
  match s with
  | [] => .error .ErrSyntax
  | c :: rest =>
    let neg := c == '-'
    let body := if c == '+' then rest else if c == '-' then rest else s
    match ParseUint body p.IntSize with
    | .error .ErrSyntax => .error .ErrSyntax
    | .error .ErrRange => .error .ErrRange
    | .ok un =>
      let cutoff := 2 ^ (p.IntSize - 1)
      if !neg && un ≥ cutoff then .error .ErrRange
      else if neg && un > cutoff then .error .ErrRange
      else if neg then .ok (-(un : Int)) else .ok (un : Int)

/-- The function `strconv.Atoi`: "equivalent to `ParseInt(s, 10, 0)`, converted
to type int"; the error is a `*NumError` naming the input. -/
def Atoi (p : Platform) (s : String) : Except NumError Int :=
  match ParseInt p s.data with
  | .ok n => .ok n
  | .error e => .error { Func := "Atoi", Num := s, Err := e }

/-! ## Go standard library: `fmt` -/

/-- The function `fmt.Sprintf` restricted to the verb `%s` applied to string
operands (and the escape `%%`); a `%s` without operand renders as
`%!s(MISSING)`. -/
def sprintfChars : List Char → List String → List Char
  | [], _ => []
  | '%' :: 's' :: rest, a :: as => a.data ++ sprintfChars rest as
  | '%' :: 's' :: rest, [] => "%!s(MISSING)".data ++ sprintfChars rest []
  | '%' :: '%' :: rest, as => '%' :: sprintfChars rest as
  | c :: rest, as => c :: sprintfChars rest as

/-- The function `fmt.Sprintf` on a format and string operands. -/
def Sprintf (format : String) (as : List String) : String :=
  String.mk (sprintfChars format.data as)

/-! ## The data model -/

/-- Modelled from the spec: the type `model.VolumeSpec` (declared in `pkg/model`),
with the fields of the data-model table in their order. `Size` is an `int64`;
every field defaults to the Go zero value, as in a composite literal. -/
structure VolumeSpec where
  Id : String := ""
  CreatedAt : String := ""
  UpdatedAt : String := ""
  Name : String := ""
  Description : String := ""
  Size : Int := 0
  AvailabilityZone : String := ""
  Status : String := ""
  PoolId : String := ""
  ProfileId : String := ""
  Metadata : List (String × String) := []
deriving DecidableEq, Repr

/-- Modelled from the spec: the type `KeyList`, the ordered list of field names that
the output formatter projects. -/
abbrev KeyList := List String

/-- Modelled from the spec: one entry of the formatter hook set, a per-field custom
rendering. -/
structure Formatter where
  key : String
  render : String → String

/-- Modelled from the spec: the type `FormatterList`, the formatter hook set. -/
abbrev FormatterList := List Formatter

/-- The part of a `cobra.Command` that the file sets. -/
structure Command where
  Use : String
  Short : String
deriving DecidableEq, Repr

/-- Modelled from the spec: the remote client facade `client`. A Go `error` is
represented by its message; `none` or `.ok` is the `nil` error. -/
structure Client where
  CreateVolume : VolumeSpec → Except String VolumeSpec
  GetVolume : String → Except String VolumeSpec
  ListVolumes : Except String (List VolumeSpec)
  DeleteVolume : String → VolumeSpec → Option String
  UpdateVolume : String → VolumeSpec → Except String VolumeSpec

/-- The package-level variables read by the handlers: the four flag variables
and the client. -/
structure Globals where
  profileId : String
  volName : String
  volDesp : String
  volAz : String
  client : Client

/-! ## The process -/

/-- A call made on the client, with its arguments. -/
inductive ClientCall where
  | CreateVolume (vol : VolumeSpec)
  | GetVolume (id : String)
  | ListVolumes
  | DeleteVolume (id : String) (vol : VolumeSpec)
  | UpdateVolume (id : String) (vol : VolumeSpec)
deriving DecidableEq, Repr

/-- What is written to the error stream. -/
inductive StderrEvent where
  /-- The statement `fmt.Fprintln(os.Stderr, s)`: the text and a newline. -/
  | line (s : String)
  /-- The statement `cmd.Usage()`: the usage text of the command. -/
  | usage (cmd : Command)
  /-- The output of `log.Fatalf(format, arg, err)`. -/
  | fatal (format : String) (arg : String) (err : NumError)
deriving DecidableEq, Repr

/-- What is written to standard output. -/
inductive StdoutEvent where
  /-- Text written by `fmt.Printf`. -/
  | text (s : String)
  /-- The output of `PrintDict(resp, keys, fmts)`. -/
  | dict (resp : VolumeSpec) (keys : KeyList) (fmts : FormatterList)
  /-- The output of `PrintList(resp, keys, fmts)`. -/
  | list (resp : List VolumeSpec) (keys : KeyList) (fmts : FormatterList)

/-- The observable state of the process. -/
structure World where
  stderr : List StderrEvent := []
  stdout : List StdoutEvent := []
  calls : List ClientCall := []

/-- A computation either returns a value or has ended the process with
`os.Exit(code)`. -/
inductive Outcome (α : Type) where
  | returned (a : α) (w : World)
  | exited (code : Nat) (w : World)

/-- A Go statement sequence over the world. -/
def Proc (α : Type) : Type := World → Outcome α

/-- Sequencing: nothing runs after `os.Exit`. -/
def Proc.bind {α β : Type} (m : Proc α) (f : α → Proc β) : Proc β :=
  fun w =>
    match m w with
    | .returned a w1 => f a w1
    | .exited code w1 => .exited code w1

instance : Monad Proc where
  pure a := fun w => .returned a w
  bind := Proc.bind

/-- The function `os.Exit`. -/
def osExit {α : Type} (code : Nat) : Proc α :=
  fun w => .exited code w

/-- The statement `fmt.Fprintln(os.Stderr, s)`. -/
def fprintlnStderr (s : String) : Proc Unit :=
  fun w => .returned () { w with stderr := w.stderr ++ [.line s] }

/-- The method `cmd.Usage()`; cobra writes the usage text to the error stream. -/
def Command.Usage (cmd : Command) : Proc Unit :=
  fun w => .returned () { w with stderr := w.stderr ++ [.usage cmd] }

/-- The function `log.Fatalf`: the message goes to the error stream, then
`os.Exit(1)`. -/
def logFatalf {α : Type} (format : String) (arg : String) (err : NumError) : Proc α :=
  fun w => .exited 1 { w with stderr := w.stderr ++ [.fatal format arg err] }

/-- The function `fmt.Printf` with string operands. -/
def fmtPrintf (format : String) (as : List String) : Proc Unit :=
  fun w => .returned () { w with stdout := w.stdout ++ [.text (Sprintf format as)] }

/-- Modelled from the spec: the function `PrintDict` (dict view of one record on
standard output). -/
def PrintDict (resp : VolumeSpec) (keys : KeyList) (fmts : FormatterList) : Proc Unit :=
  fun w => .returned () { w with stdout := w.stdout ++ [.dict resp keys fmts] }

/-- Modelled from the spec: the function `PrintList` (table view of a collection on
standard output). -/
def PrintList (resp : List VolumeSpec) (keys : KeyList) (fmts : FormatterList) : Proc Unit :=
  fun w => .returned () { w with stdout := w.stdout ++ [.list resp keys fmts] }

/-- The call `client.CreateVolume(vol)`. -/
def Client.callCreateVolume (c : Client) (vol : VolumeSpec) :
    Proc (Except String VolumeSpec) :=
  fun w => .returned (c.CreateVolume vol) { w with calls := w.calls ++ [.CreateVolume vol] }

/-- The call `client.GetVolume(id)`. -/
def Client.callGetVolume (c : Client) (id : String) : Proc (Except String VolumeSpec) :=
  fun w => .returned (c.GetVolume id) { w with calls := w.calls ++ [.GetVolume id] }

/-- The call `client.ListVolumes()`. -/
def Client.callListVolumes (c : Client) : Proc (Except String (List VolumeSpec)) :=
  fun w => .returned c.ListVolumes { w with calls := w.calls ++ [.ListVolumes] }

/-- The call `client.DeleteVolume(id, vol)`. -/
def Client.callDeleteVolume (c : Client) (id : String) (vol : VolumeSpec) :
    Proc (Option String) :=
  fun w => .returned (c.DeleteVolume id vol) { w with calls := w.calls ++ [.DeleteVolume id vol] }

/-- The call `client.UpdateVolume(id, vol)`. -/
def Client.callUpdateVolume (c : Client) (id : String) (vol : VolumeSpec) :
    Proc (Except String VolumeSpec) :=
  fun w => .returned (c.UpdateVolume id vol) { w with calls := w.calls ++ [.UpdateVolume id vol] }

/-- The Go index expression `args[i]` on an index that is in range. -/
def index (args : List String) (i : Nat) : String :=
  args.getD i ""

/-! ## The commands and their handlers -/

def volumeCommand : Command :=
  { Use := "volume", Short := "manage volumes in the cluster" }

def volumeCreateCommand : Command :=
  { Use := "create <size>", Short := "create a volume in the cluster" }

def volumeShowCommand : Command :=
  { Use := "show <id>", Short := "show a volume in the cluster" }

def volumeListCommand : Command :=
  { Use := "list", Short := "list all volumes in the cluster" }

def volumeDeleteCommand : Command :=
  { Use := "delete <id>", Short := "delete a volume in the cluster" }

def volumeUpdateCommand : Command :=
  { Use := "update <id>", Short := "update a volume in the cluster" }

def volumeAction (cmd : Command) (_args : List String) : Proc Unit := do
  cmd.Usage
  osExit 1

def volumeCreateAction (p : Platform) (g : Globals) (cmd : Command) (args : List String) :
    Proc Unit := do
  if args.length ≠ 1 then
    fprintlnStderr "The number of args is not correct!"
    cmd.Usage
    osExit 1
  match Atoi p (index args 0) with
  | .error err => logFatalf "error parsing size %s: %+v" (index args 0) err
  | .ok size =>
    let vol : VolumeSpec := {
      Name := g.volName
      Description := g.volDesp
      AvailabilityZone := g.volAz
      Size := size
      ProfileId := g.profileId }
    match ← g.client.callCreateVolume vol with
    | .error err =>
      fprintlnStderr err
      osExit 1
    | .ok resp =>
      let keys : KeyList := ["Id", "CreatedAt", "UpdatedAt", "Name", "Description", "Size",
        "AvailabilityZone", "Status", "PoolId", "ProfileId", "Metadata"]
      PrintDict resp keys []

def volumeShowAction (g : Globals) (cmd : Command) (args : List String) : Proc Unit := do
  if args.length ≠ 1 then
    fprintlnStderr "The number of args is not correct!"
    cmd.Usage
    osExit 1
  match ← g.client.callGetVolume (index args 0) with
  | .error err =>
    fprintlnStderr err
    osExit 1
  | .ok resp =>
    let keys : KeyList := ["Id", "CreatedAt", "UpdatedAt", "Name", "Description", "Size",
      "AvailabilityZone", "Status", "PoolId", "ProfileId", "Metadata"]
    PrintDict resp keys []

def volumeListAction (g : Globals) (cmd : Command) (args : List String) : Proc Unit := do
  if args.length ≠ 0 then
    fprintlnStderr "The number of args is not correct!"
    cmd.Usage
    osExit 1
  match ← g.client.callListVolumes with
  | .error err =>
    fprintlnStderr err
    osExit 1
  | .ok resp =>
    let keys : KeyList := ["Id", "Name", "Description", "Size",
      "AvailabilityZone", "Status", "PoolId", "ProfileId"]
    PrintList resp keys []

def volumeDeleteAction (g : Globals) (cmd : Command) (args : List String) : Proc Unit := do
  if args.length ≠ 1 then
    fprintlnStderr "The number of args is not correct!"
    cmd.Usage
    osExit 1
  let vol : VolumeSpec := { ProfileId := g.profileId }
  match ← g.client.callDeleteVolume (index args 0) vol with
  | some err =>
    fprintlnStderr err
    osExit 1
  | none =>
    fmtPrintf "Delete volume(%s) success.\n" [index args 0]

def volumeUpdateAction (g : Globals) (cmd : Command) (args : List String) : Proc Unit := do
  if args.length ≠ 1 then
    fprintlnStderr "The number of args is not correct!"
    cmd.Usage
    osExit 1
  let vol : VolumeSpec := {
    Name := g.volName
    Description := g.volDesp }
  match ← g.client.callUpdateVolume (index args 0) vol with
  | .error err =>
    fprintlnStderr err
    osExit 1
  | .ok resp =>
    let keys : KeyList := ["Id", "CreatedAt", "UpdatedAt", "Name", "Description", "Size",
      "AvailabilityZone", "Status", "PoolId", "ProfileId", "Metadata"]
    PrintDict resp keys []

/-! ## Observations on a run -/

/-- The world a computation ends in. -/
def Outcome.world {α : Type} : Outcome α → World
  | .returned _ w => w
  | .exited _ w => w

/-- The exit code of the process: the code given to `os.Exit`, and 0 when the
handler returns (cobra then returns to `main`, which ends normally). -/
def Outcome.exitCode {α : Type} : Outcome α → Nat
  | .returned _ _ => 0
  | .exited code _ => code

/-- Runs a handler from the start of the process: nothing written, no call made. -/
def run (h : Proc Unit) : Outcome Unit :=
  h {}

/-- A stub client whose every call succeeds with the given record. -/
def okClient (r : VolumeSpec) : Client :=
  { CreateVolume := fun _ => .ok r
    GetVolume := fun _ => .ok r
    ListVolumes := .ok [r]
    DeleteVolume := fun _ _ => none
    UpdateVolume := fun _ _ => .ok r }

/-- A stub client whose every call fails with the given message. -/
def errClient (msg : String) : Client :=
  { CreateVolume := fun _ => .error msg
    GetVolume := fun _ => .error msg
    ListVolumes := .error msg
    DeleteVolume := fun _ _ => some msg
    UpdateVolume := fun _ _ => .error msg }

/-- Flag variables at the given values, with the given client. -/
def globals (profile name desp az : String) (c : Client) : Globals :=
  { profileId := profile, volName := name, volDesp := desp, volAz := az, client := c }

/-- A decimal digit byte. -/
def IsDigit (c : Char) : Prop := '0' ≤ c ∧ c ≤ '9'

instance (c : Char) : Decidable (IsDigit c) := by
  unfold IsDigit; exact inferInstance

/-- The number that a digit string denotes in base 10, continuing from `n`. -/
def decimalValue (cs : List Char) (n : Nat) : Nat :=
  cs.foldl (fun a c => a * 10 + (c.toNat - '0'.toNat)) n

/-- The outcome of an argument-count failure: the fixed error line and the usage
text on the error stream, nothing on standard output, exit code 1, and no call
on the client. -/
def IsUsageError (cmd : Command) (o : Outcome Unit) : Prop :=
  o.world.stderr = [.line "The number of args is not correct!", .usage cmd] ∧
  o.world.stdout = [] ∧ o.exitCode = 1 ∧ o.world.calls = []

/-- The outcome of a failed client call: the message of the error on the error
stream, nothing on standard output, the one call and no other, exit code 1. -/
def IsCallFailure (msg : String) (call : ClientCall) (o : Outcome Unit) : Prop :=
  o.world.stderr = [.line msg] ∧ o.world.stdout = [] ∧ o.world.calls = [call] ∧
  o.exitCode = 1

/-- The exit code of the process is 0 or 1. -/
def ExitsZeroOrOne (o : Outcome Unit) : Prop :=
  o.exitCode = 0 ∨ o.exitCode = 1

/-- The process ended through the usage-error path of a handler. -/
def usageExit (cmd : Command) : Outcome Unit :=
  .exited 1 { stderr := [.line "The number of args is not correct!", .usage cmd] }

/-- The process ended after the client call `call` failed with `msg`. -/
def callFailureExit (msg : String) (call : ClientCall) : Outcome Unit :=
  .exited 1 { stderr := [.line msg], calls := [call] }

/-! ## The integer parser -/

theorem digitValue_of_isDigit (c : Char) (h : IsDigit c) :
    digitValue c = some (c.toNat - '0'.toNat) := by
  unfold digitValue
  exact if_pos h

theorem digitValue_of_not_isDigit (c : Char) (h : ¬ IsDigit c) : digitValue c = none := by
  unfold digitValue
  exact if_neg h

theorem digit_le_nine (c : Char) (h : IsDigit c) : c.toNat - '0'.toNat ≤ 9 := by
  obtain ⟨h1, h2⟩ := h
  have h1n : '0'.toNat ≤ c.toNat := h1
  have h2n : c.toNat ≤ '9'.toNat := h2
  have e0 : '0'.toNat = 48 := rfl
  have e9 : '9'.toNat = 57 := rfl
  omega

theorem decimalValue_nil (n : Nat) : decimalValue [] n = n := rfl

theorem decimalValue_cons (c : Char) (cs : List Char) (n : Nat) :
    decimalValue (c :: cs) n = decimalValue cs (n * 10 + (c.toNat - '0'.toNat)) := rfl

theorem decimalValue_append (cs ds : List Char) (n : Nat) :
    decimalValue (cs ++ ds) n = decimalValue ds (decimalValue cs n) := by
  simp [decimalValue, List.foldl_append]

theorem le_decimalValue (cs : List Char) : ∀ n, n ≤ decimalValue cs n := by
  induction cs with
  | nil => intro n; exact Nat.le_refl n
  | cons c cs ih =>
    intro n
    rw [decimalValue_cons]
    have := ih (n * 10 + (c.toNat - '0'.toNat))
    omega

/-- On digits the loop of `ParseUint` yields the denoted number when it is at most
`maxVal`, and a range error otherwise. -/
theorem parseUintLoop_digits (maxVal : Nat) (hm : maxVal < 2 ^ 64) :
    ∀ (cs : List Char) (n : Nat), (∀ c ∈ cs, IsDigit c) → n ≤ maxVal →
      parseUintLoop maxVal cs n =
        if decimalValue cs n ≤ maxVal then .ok (decimalValue cs n) else .error .ErrRange := by
  intro cs
  induction cs with
  | nil =>
    intro n _ hn
    simp [parseUintLoop, decimalValue_nil, hn]
  | cons c cs ih =>
    intro n hall hn
    have hc : IsDigit c := hall c (List.mem_cons_self _ _)
    have hd : c.toNat - '0'.toNat ≤ 9 := digit_le_nine c hc
    have hge := le_decimalValue cs (n * 10 + (c.toNat - '0'.toNat))
    have hm2 : maxVal < 18446744073709551616 := by simpa using hm
    rw [decimalValue_cons]
    simp only [parseUintLoop, digitValue_of_isDigit c hc]
    generalize c.toNat - '0'.toNat = d at hd hge ⊢
    norm_num
    by_cases h1 : 1844674407370955162 ≤ n
    · rw [if_pos h1, if_neg (by omega)]
    · rw [if_neg h1]
      by_cases h2 : (n * 10 + d) % 18446744073709551616 < n * 10 ∨
          maxVal < (n * 10 + d) % 18446744073709551616
      · rw [if_pos h2, if_neg (by omega)]
      · rw [if_neg h2]
        have h3 : (n * 10 + d) % 18446744073709551616 = n * 10 + d := by omega
        rw [h3]
        exact ih (n * 10 + d) (fun c hc => hall c (List.mem_cons_of_mem _ hc)) (by omega)

/-- The loop of `ParseUint` fails on a string with a byte that is not a digit. -/
theorem parseUintLoop_not_digits (maxVal : Nat) :
    ∀ (cs : List Char) (n : Nat), (∃ c ∈ cs, ¬ IsDigit c) →
      ∃ e, parseUintLoop maxVal cs n = .error e := by
  intro cs
  induction cs with
  | nil => intro n h; simp at h
  | cons c cs ih =>
    intro n h
    by_cases hc : IsDigit c
    · have hrest : ∃ c ∈ cs, ¬ IsDigit c := by
        obtain ⟨x, hx, hnx⟩ := h
        rcases List.mem_cons.mp hx with rfl | hx2
        · exact absurd hc hnx
        · exact ⟨x, hx2, hnx⟩
      simp only [parseUintLoop, digitValue_of_isDigit c hc]
      split
      · exact ⟨_, rfl⟩
      · split
        · exact ⟨_, rfl⟩
        · exact ih _ hrest
    · simp only [parseUintLoop, digitValue_of_not_isDigit c hc]
      exact ⟨_, rfl⟩

/-- On a non-empty digit string `ParseUint` yields the denoted number when it fits
`bitSize` bits, and a range error otherwise. -/
theorem ParseUint_digits (cs : List Char) (bitSize : Nat) (hb : bitSize ≤ 64)
    (hne : cs ≠ []) (hall : ∀ c ∈ cs, IsDigit c) :
    ParseUint cs bitSize =
      if decimalValue cs 0 ≤ 2 ^ bitSize - 1 then .ok (decimalValue cs 0)
      else .error .ErrRange := by
  have h1 : 2 ^ bitSize ≤ 2 ^ 64 := Nat.pow_le_pow_right (by decide) hb
  have h2 : 0 < 2 ^ bitSize := Nat.pos_pow_of_pos _ (by decide)
  unfold ParseUint
  rw [if_neg hne]
  exact parseUintLoop_digits (2 ^ bitSize - 1) (by omega) cs 0 hall (Nat.zero_le _)

theorem IntSize_le (p : Platform) : p.IntSize ≤ 64 := by
  cases p <;> decide

theorem isDigit_ne_plus (c : Char) (h : IsDigit c) : c ≠ '+' := by
  rintro rfl
  exact absurd h (by decide)

theorem isDigit_ne_minus (c : Char) (h : IsDigit c) : c ≠ '-' := by
  rintro rfl
  exact absurd h (by decide)

theorem cutoff_le_maxVal (p : Platform) : 2 ^ (p.IntSize - 1) ≤ 2 ^ p.IntSize - 1 := by
  cases p <;> simp [Platform.IntSize]

/-- The function `ParseInt` on a non-empty digit string without sign. -/
theorem ParseInt_unsigned (p : Platform) (cs : List Char) (hne : cs ≠ [])
    (hall : ∀ c ∈ cs, IsDigit c) :
    ParseInt p cs =
      if decimalValue cs 0 < 2 ^ (p.IntSize - 1) then .ok (decimalValue cs 0 : Int)
      else .error .ErrRange := by
  cases cs with
  | nil => exact absurd rfl hne
  | cons c rest =>
    have hc : IsDigit c := hall c (List.mem_cons_self _ _)
    have hp := isDigit_ne_plus c hc
    have hm := isDigit_ne_minus c hc
    have hcm := cutoff_le_maxVal p
    simp only [ParseInt, beq_iff_eq, hp, hm, if_false]
    rw [ParseUint_digits (c :: rest) p.IntSize (IntSize_le p) hne hall]
    generalize decimalValue (c :: rest) 0 = v
    by_cases h1 : v ≤ 2 ^ p.IntSize - 1
    · rw [if_pos h1]
      by_cases h2 : v < 2 ^ (p.IntSize - 1)
      · have h2n : ¬ 2 ^ (p.IntSize - 1) ≤ v := by omega
        simp [h2, h2n, hm]
      · have h2n : 2 ^ (p.IntSize - 1) ≤ v := by omega
        simp [h2, h2n, hm]
    · rw [if_neg h1, if_neg (by omega)]

/-- The function `ParseInt` on a plus sign followed by a non-empty digit string. -/
theorem ParseInt_plus (p : Platform) (cs : List Char) (hne : cs ≠ [])
    (hall : ∀ c ∈ cs, IsDigit c) :
    ParseInt p ('+' :: cs) =
      if decimalValue cs 0 < 2 ^ (p.IntSize - 1) then .ok (decimalValue cs 0 : Int)
      else .error .ErrRange := by
  have hcm := cutoff_le_maxVal p
  simp only [ParseInt, beq_self_eq_true, if_true]
  rw [ParseUint_digits cs p.IntSize (IntSize_le p) hne hall]
  generalize decimalValue cs 0 = v
  have hpm : (('+' : Char) == '-') = false := by decide
  by_cases h1 : v ≤ 2 ^ p.IntSize - 1
  · rw [if_pos h1]
    by_cases h2 : v < 2 ^ (p.IntSize - 1)
    · have h2n : ¬ 2 ^ (p.IntSize - 1) ≤ v := by omega
      simp [h2, h2n, hpm]
    · have h2n : 2 ^ (p.IntSize - 1) ≤ v := by omega
      simp [h2, h2n, hpm]
  · rw [if_neg h1, if_neg (by omega)]

/-- The function `ParseInt` on a minus sign followed by a non-empty digit string. -/
theorem ParseInt_minus (p : Platform) (cs : List Char) (hne : cs ≠ [])
    (hall : ∀ c ∈ cs, IsDigit c) :
    ParseInt p ('-' :: cs) =
      if decimalValue cs 0 ≤ 2 ^ (p.IntSize - 1) then .ok (-(decimalValue cs 0 : Int))
      else .error .ErrRange := by
  have hcm := cutoff_le_maxVal p
  have hmp : (('-' : Char) == '+') = false := by decide
  simp only [ParseInt, beq_self_eq_true, if_true, hmp]
  simp only [Bool.false_eq_true, if_false]
  rw [ParseUint_digits cs p.IntSize (IntSize_le p) hne hall]
  generalize decimalValue cs 0 = v
  by_cases h1 : v ≤ 2 ^ p.IntSize - 1
  · rw [if_pos h1]
    by_cases h2 : v ≤ 2 ^ (p.IntSize - 1)
    · have h2n : ¬ 2 ^ (p.IntSize - 1) < v := by omega
      simp [h2, h2n]
    · have h2n : 2 ^ (p.IntSize - 1) < v := by omega
      simp [h2, h2n]
  · rw [if_neg h1, if_neg (by omega)]

theorem toDigitsCore_append (fuel : Nat) : ∀ (n : Nat) (ds : List Char),
    Nat.toDigitsCore 10 fuel n ds = Nat.toDigitsCore 10 fuel n [] ++ ds := by
  induction fuel with
  | zero => intro n ds; simp [Nat.toDigitsCore]
  | succ fuel ih =>
    intro n ds
    simp only [Nat.toDigitsCore]
    split
    · simp
    · rw [ih (n / 10) (Nat.digitChar (n % 10) :: ds), ih (n / 10) [Nat.digitChar (n % 10)]]
      simp

theorem digitChar_toNat (d : Nat) (h : d < 10) : (Nat.digitChar d).toNat = 48 + d := by
  interval_cases d <;> rfl

theorem isDigit_digitChar (d : Nat) (h : d < 10) : IsDigit (Nat.digitChar d) := by
  interval_cases d <;> decide

/-- The digits that `Nat.toDigitsCore` produces with enough fuel are decimal
digits that denote the number. -/
theorem toDigitsCore_spec (fuel : Nat) : ∀ n, n < fuel →
    (∀ c ∈ Nat.toDigitsCore 10 fuel n [], IsDigit c) ∧
    decimalValue (Nat.toDigitsCore 10 fuel n []) 0 = n ∧
    Nat.toDigitsCore 10 fuel n [] ≠ [] := by
  induction fuel with
  | zero => intro n h; omega
  | succ fuel ih =>
    intro n h
    have hmod : n % 10 < 10 := Nat.mod_lt _ (by decide)
    have hz : '0'.toNat = 48 := rfl
    simp only [Nat.toDigitsCore]
    split
    · rename_i h0
      refine ⟨?_, ?_, by simp⟩
      · intro c hc
        rw [List.mem_singleton] at hc
        rw [hc]
        exact isDigit_digitChar _ hmod
      · rw [decimalValue_cons, decimalValue_nil, digitChar_toNat _ hmod, hz]
        omega
    · rename_i h0
      rw [toDigitsCore_append]
      obtain ⟨i1, i2, i3⟩ := ih (n / 10) (by omega)
      refine ⟨?_, ?_, by simp⟩
      · intro c hc
        rcases List.mem_append.mp hc with hc | hc
        · exact i1 c hc
        · rw [List.mem_singleton] at hc
          rw [hc]
          exact isDigit_digitChar _ hmod
      · rw [decimalValue_append, i2, decimalValue_cons, decimalValue_nil,
          digitChar_toNat _ hmod, hz]
        omega

/-- The decimal text of a natural number: digits that denote it. -/
theorem toDigits_spec (n : Nat) :
    (∀ c ∈ Nat.toDigits 10 n, IsDigit c) ∧ decimalValue (Nat.toDigits 10 n) 0 = n ∧
    Nat.toDigits 10 n ≠ [] :=
  toDigitsCore_spec (n + 1) n (Nat.lt_succ_self n)

theorem toString_ofNat_data (m : Nat) : (toString (Int.ofNat m)).data = Nat.toDigits 10 m := rfl

theorem toString_negSucc_data (m : Nat) :
    (toString (Int.negSucc m)).data = '-' :: Nat.toDigits 10 (m + 1) := by
  show ("-" ++ Nat.repr (m + 1)).data = _
  simp [Nat.repr, List.asString]

/-- The function `Atoi` reads back the decimal text of every integer of the
platform `int` range. -/
theorem Atoi_toString (p : Platform) (n : Int) (hlo : -(2 ^ (p.IntSize - 1) : Int) ≤ n)
    (hhi : n < 2 ^ (p.IntSize - 1)) : Atoi p (toString n) = .ok n := by
  unfold Atoi
  cases n with
  | ofNat m =>
    obtain ⟨h1, h2, h3⟩ := toDigits_spec m
    rw [toString_ofNat_data, ParseInt_unsigned p _ h3 h1, h2]
    have : m < 2 ^ (p.IntSize - 1) := by
      rw [Int.ofNat_eq_coe] at hhi
      exact_mod_cast hhi
    rw [if_pos this]
    rfl
  | negSucc m =>
    obtain ⟨h1, h2, h3⟩ := toDigits_spec (m + 1)
    rw [toString_negSucc_data, ParseInt_minus p _ h3 h1, h2]
    have : m + 1 ≤ 2 ^ (p.IntSize - 1) := by
      have h4 : -(2 ^ (p.IntSize - 1) : Int) ≤ -((m : Int) + 1) := by
        rw [Int.negSucc_eq] at hlo; exact hlo
      have h5 : ((m + 1 : Nat) : Int) ≤ ((2 ^ (p.IntSize - 1) : Nat) : Int) := by
        push_cast; omega
      exact_mod_cast h5
    rw [if_pos this]
    simp [Int.negSucc_eq]

/-- A string that `ParseUint` accepts is a non-empty digit string. -/
theorem ParseUint_ok_digits (cs : List Char) (bitSize un : Nat)
    (h : ParseUint cs bitSize = .ok un) : cs ≠ [] ∧ ∀ c ∈ cs, IsDigit c := by
  unfold ParseUint at h
  by_cases hne : cs = []
  · rw [if_pos hne] at h
    cases h
  · rw [if_neg hne] at h
    refine ⟨hne, ?_⟩
    by_contra hall
    push_neg at hall
    obtain ⟨e, he⟩ := parseUintLoop_not_digits (2 ^ bitSize - 1) cs 0 hall
    rw [he] at h
    cases h

/-- What `ParseInt` accepts has, after the optional sign, a body that `ParseUint`
accepts. -/
theorem ParseInt_ok_body (p : Platform) (c : Char) (rest : List Char) (n : Int)
    (h : ParseInt p (c :: rest) = .ok n) :
    ∃ un, ParseUint (if c == '+' then rest else if c == '-' then rest else c :: rest)
      p.IntSize = .ok un := by
  simp only [ParseInt] at h
  split at h
  · cases h
  · cases h
  · rename_i un hun
    exact ⟨un, hun⟩

/-- The texts that `Atoi` accepts are an optional sign followed by one or more
decimal digits that denote a number of the platform `int` range, and the result
is that number. -/
theorem Atoi_ok_iff (p : Platform) (s : String) (n : Int) :
    Atoi p s = .ok n ↔
      ∃ cs, cs ≠ [] ∧ (∀ c ∈ cs, IsDigit c) ∧
        (((s.data = cs ∨ s.data = '+' :: cs) ∧ decimalValue cs 0 < 2 ^ (p.IntSize - 1) ∧
            n = (decimalValue cs 0 : Int)) ∨
          (s.data = '-' :: cs ∧ decimalValue cs 0 ≤ 2 ^ (p.IntSize - 1) ∧
            n = -(decimalValue cs 0 : Int))) := by
  have hA : Atoi p s = .ok n ↔ ParseInt p s.data = .ok n := by
    unfold Atoi
    cases ParseInt p s.data <;> simp
  rw [hA]
  constructor
  · intro h
    cases hs : s.data with
    | nil => rw [hs] at h; simp [ParseInt] at h
    | cons c rest =>
      rw [hs] at h
      obtain ⟨un, hun⟩ := ParseInt_ok_body p c rest n h
      by_cases hp : c = '+'
      · subst hp
        simp only [beq_self_eq_true, if_true] at hun
        obtain ⟨hne, hall⟩ := ParseUint_ok_digits _ _ _ hun
        rw [ParseInt_plus p rest hne hall] at h
        refine ⟨rest, hne, hall, Or.inl ⟨Or.inr rfl, ?_⟩⟩
        split at h
        · rename_i hlt
          exact ⟨hlt, by cases h; rfl⟩
        · cases h
      · by_cases hm : c = '-'
        · subst hm
          have hmp : (('-' : Char) == '+') = false := by decide
          simp only [hmp, beq_self_eq_true, if_true, Bool.false_eq_true, if_false] at hun
          obtain ⟨hne, hall⟩ := ParseUint_ok_digits _ _ _ hun
          rw [ParseInt_minus p rest hne hall] at h
          refine ⟨rest, hne, hall, Or.inr ⟨rfl, ?_⟩⟩
          split at h
          · rename_i hle
            exact ⟨hle, by cases h; rfl⟩
          · cases h
        · simp only [beq_iff_eq, hp, hm, if_false] at hun
          obtain ⟨hne, hall⟩ := ParseUint_ok_digits _ _ _ hun
          rw [ParseInt_unsigned p (c :: rest) hne hall] at h
          refine ⟨c :: rest, hne, hall, Or.inl ⟨Or.inl rfl, ?_⟩⟩
          split at h
          · rename_i hlt
            exact ⟨hlt, by cases h; rfl⟩
          · cases h
  · rintro ⟨cs, hne, hall, (⟨hs | hs, hlt, hn⟩ | ⟨hs, hle, hn⟩)⟩
    · rw [hs, ParseInt_unsigned p cs hne hall, if_pos hlt, hn]
    · rw [hs, ParseInt_plus p cs hne hall, if_pos hlt, hn]
    · rw [hs, ParseInt_minus p cs hne hall, if_pos hle, hn]

/-- A result of `Atoi` lies in the range of the platform `int`. -/
theorem Atoi_ok_range (p : Platform) (s : String) (n : Int) (h : Atoi p s = .ok n) :
    -(2 ^ (p.IntSize - 1) : Int) ≤ n ∧ n < 2 ^ (p.IntSize - 1) := by
  obtain ⟨cs, _, _, (⟨_, hlt, hn⟩ | ⟨_, hle, hn⟩)⟩ := (Atoi_ok_iff p s n).mp h
  · have h1 : ((decimalValue cs 0 : Nat) : Int) < ((2 ^ (p.IntSize - 1) : Nat) : Int) := by
      exact_mod_cast hlt
    push_cast at h1
    constructor <;> omega
  · have h1 : ((decimalValue cs 0 : Nat) : Int) ≤ ((2 ^ (p.IntSize - 1) : Nat) : Int) := by
      exact_mod_cast hle
    have h2 : (0 : Int) < ((2 ^ (p.IntSize - 1) : Nat) : Int) := by
      exact_mod_cast Nat.pos_pow_of_pos _ (by decide)
    push_cast at h1 h2
    constructor <;> omega

/-- A result of `Atoi` is negative only on a text that begins with a minus sign. -/
theorem Atoi_ok_nonneg (p : Platform) (s : String) (n : Int) (h : Atoi p s = .ok n)
    (hs : s.data.head? ≠ some '-') : 0 ≤ n := by
  obtain ⟨cs, _, _, (⟨_, _, hn⟩ | ⟨hd, _, _⟩)⟩ := (Atoi_ok_iff p s n).mp h
  · rw [hn]
    exact Int.ofNat_nonneg _
  · rw [hd] at hs
    exact absurd rfl hs

/-! ## The formatter -/

/-- The success message of delete: the format with the argument in the place of
the verb. -/
theorem Sprintf_delete (id : String) :
    Sprintf "Delete volume(%s) success.\n" [id] = "Delete volume(" ++ id ++ ") success.\n" := by
  apply String.ext
  have h : "Delete volume(%s) success.\n".data =
      "Delete volume(".data ++ ('%' :: 's' :: ") success.\n".data) := by decide
  simp only [Sprintf, h, String.data_append]
  simp [sprintfChars]

/-! ## The runs of the handlers -/

theorem run_volumeAction (cmd : Command) (args : List String) :
    run (volumeAction cmd args) = .exited 1 { stderr := [.usage cmd] } := by
  simp [run, volumeAction, bind, Proc.bind, Command.Usage, osExit]

theorem run_volumeCreateAction_mismatch (p : Platform) (g : Globals) (cmd : Command)
    (args : List String) (h : args.length ≠ 1) :
    run (volumeCreateAction p g cmd args) = usageExit cmd := by
  simp [usageExit, run, volumeCreateAction, h, bind, Proc.bind, fprintlnStderr,
    Command.Usage, osExit]

theorem run_volumeShowAction_mismatch (g : Globals) (cmd : Command)
    (args : List String) (h : args.length ≠ 1) :
    run (volumeShowAction g cmd args) = usageExit cmd := by
  simp [usageExit, run, volumeShowAction, h, bind, Proc.bind, fprintlnStderr,
    Command.Usage, osExit]

theorem run_volumeListAction_mismatch (g : Globals) (cmd : Command)
    (args : List String) (h : args.length ≠ 0) :
    run (volumeListAction g cmd args) = usageExit cmd := by
  simp [usageExit, run, volumeListAction, h, bind, Proc.bind, fprintlnStderr,
    Command.Usage, osExit]

theorem run_volumeDeleteAction_mismatch (g : Globals) (cmd : Command)
    (args : List String) (h : args.length ≠ 1) :
    run (volumeDeleteAction g cmd args) = usageExit cmd := by
  simp [usageExit, run, volumeDeleteAction, h, bind, Proc.bind, fprintlnStderr,
    Command.Usage, osExit]

theorem run_volumeUpdateAction_mismatch (g : Globals) (cmd : Command)
    (args : List String) (h : args.length ≠ 1) :
    run (volumeUpdateAction g cmd args) = usageExit cmd := by
  simp [usageExit, run, volumeUpdateAction, h, bind, Proc.bind, fprintlnStderr,
    Command.Usage, osExit]

theorem isUsageError_usageExit (cmd : Command) : IsUsageError cmd (usageExit cmd) := by
  simp [IsUsageError, usageExit, Outcome.world, Outcome.exitCode]

theorem isCallFailure_callFailureExit (msg : String) (call : ClientCall) :
    IsCallFailure msg call (callFailureExit msg call) := by
  simp [IsCallFailure, callFailureExit, Outcome.world, Outcome.exitCode]

/-- The run of create on one argument, by the result of `Atoi` and of the client. -/
theorem run_volumeCreateAction (p : Platform) (g : Globals) (cmd : Command) (s : String) :
    run (volumeCreateAction p g cmd [s]) =
      match Atoi p s with
      | .error e => .exited 1 { stderr := [.fatal "error parsing size %s: %+v" s e] }
      | .ok n =>
        match g.client.CreateVolume
            { Name := g.volName, Description := g.volDesp, AvailabilityZone := g.volAz,
              Size := n, ProfileId := g.profileId } with
        | .error err =>
          callFailureExit err (.CreateVolume
            { Name := g.volName, Description := g.volDesp, AvailabilityZone := g.volAz,
              Size := n, ProfileId := g.profileId })
        | .ok resp =>
          .returned ()
            { stdout := [.dict resp ["Id", "CreatedAt", "UpdatedAt", "Name", "Description",
                "Size", "AvailabilityZone", "Status", "PoolId", "ProfileId", "Metadata"] []],
              calls := [.CreateVolume
                { Name := g.volName, Description := g.volDesp, AvailabilityZone := g.volAz,
                  Size := n, ProfileId := g.profileId }] } := by
  cases h : Atoi p s with
  | error e =>
    simp [run, volumeCreateAction, bind, Proc.bind, index, h, logFatalf, pure]
  | ok n =>
    cases h2 : g.client.CreateVolume
        { Name := g.volName, Description := g.volDesp, AvailabilityZone := g.volAz,
          Size := n, ProfileId := g.profileId } <;>
      simp [run, volumeCreateAction, bind, Proc.bind, index, h, h2, callFailureExit,
        Client.callCreateVolume, fprintlnStderr, osExit, PrintDict, pure]

/-- The run of show on one argument, by the result of the client. -/
theorem run_volumeShowAction (g : Globals) (cmd : Command) (id : String) :
    run (volumeShowAction g cmd [id]) =
      match g.client.GetVolume id with
      | .error err => callFailureExit err (.GetVolume id)
      | .ok resp =>
        .returned ()
          { stdout := [.dict resp ["Id", "CreatedAt", "UpdatedAt", "Name", "Description",
              "Size", "AvailabilityZone", "Status", "PoolId", "ProfileId", "Metadata"] []],
            calls := [.GetVolume id] } := by
  cases h : g.client.GetVolume id <;>
    simp [run, volumeShowAction, bind, Proc.bind, index, h, callFailureExit,
      Client.callGetVolume, fprintlnStderr, osExit, PrintDict, pure]

/-- The run of list on no argument, by the result of the client. -/
theorem run_volumeListAction (g : Globals) (cmd : Command) :
    run (volumeListAction g cmd []) =
      match g.client.ListVolumes with
      | .error err => callFailureExit err .ListVolumes
      | .ok resp =>
        .returned ()
          { stdout := [.list resp ["Id", "Name", "Description", "Size", "AvailabilityZone",
              "Status", "PoolId", "ProfileId"] []],
            calls := [.ListVolumes] } := by
  cases h : g.client.ListVolumes <;>
    simp [run, volumeListAction, bind, Proc.bind, h, callFailureExit,
      Client.callListVolumes, fprintlnStderr, osExit, PrintList, pure]

/-- The run of delete on one argument, by the result of the client. -/
theorem run_volumeDeleteAction (g : Globals) (cmd : Command) (id : String) :
    run (volumeDeleteAction g cmd [id]) =
      match g.client.DeleteVolume id { ProfileId := g.profileId } with
      | some err => callFailureExit err (.DeleteVolume id { ProfileId := g.profileId })
      | none =>
        .returned ()
          { stdout := [.text (Sprintf "Delete volume(%s) success.\n" [id])],
            calls := [.DeleteVolume id { ProfileId := g.profileId }] } := by
  cases h : g.client.DeleteVolume id { ProfileId := g.profileId } <;>
    simp [run, volumeDeleteAction, bind, Proc.bind, index, h, callFailureExit,
      Client.callDeleteVolume, fprintlnStderr, osExit, fmtPrintf, pure]

/-- The run of update on one argument, by the result of the client. -/
theorem run_volumeUpdateAction (g : Globals) (cmd : Command) (id : String) :
    run (volumeUpdateAction g cmd [id]) =
      match g.client.UpdateVolume id { Name := g.volName, Description := g.volDesp } with
      | .error err =>
        callFailureExit err
          (.UpdateVolume id { Name := g.volName, Description := g.volDesp })
      | .ok resp =>
        .returned ()
          { stdout := [.dict resp ["Id", "CreatedAt", "UpdatedAt", "Name", "Description",
              "Size", "AvailabilityZone", "Status", "PoolId", "ProfileId", "Metadata"] []],
            calls := [.UpdateVolume id { Name := g.volName, Description := g.volDesp }] } := by
  cases h : g.client.UpdateVolume id { Name := g.volName, Description := g.volDesp } <;>
    simp [run, volumeUpdateAction, bind, Proc.bind, index, h, callFailureExit,
      Client.callUpdateVolume, fprintlnStderr, osExit, PrintDict, pure]

/-- A list whose length is not 1 is not a singleton, and conversely. -/
theorem length_ne_one_iff (args : List String) :
    args.length ≠ 1 ↔ ∀ s, args ≠ [s] := by
  constructor
  · intro h s hs
    exact h (by simp [hs])
  · intro h hl
    obtain ⟨s, hs⟩ := List.length_eq_one.mp hl
    exact h s hs

/-! ## The claims on the control flow -/

/-- C1: with an argument count other than the expected one (1 for create, show,
delete and update, 0 for list) every handler writes the fixed error line and the
usage text to the error stream, nothing to standard output, exits with code 1
and makes no client call, whatever the flags and the client. -/
theorem arg_count_mismatch_is_usage_error (p : Platform) (g : Globals) (cmd : Command)
    (args : List String) :
    (args.length ≠ 1 →
      IsUsageError cmd (run (volumeCreateAction p g cmd args)) ∧
      IsUsageError cmd (run (volumeShowAction g cmd args)) ∧
      IsUsageError cmd (run (volumeDeleteAction g cmd args)) ∧
      IsUsageError cmd (run (volumeUpdateAction g cmd args))) ∧
    (args.length ≠ 0 → IsUsageError cmd (run (volumeListAction g cmd args))) := by
  constructor
  · intro h
    rw [run_volumeCreateAction_mismatch p g cmd args h, run_volumeShowAction_mismatch g cmd args h,
      run_volumeDeleteAction_mismatch g cmd args h, run_volumeUpdateAction_mismatch g cmd args h]
    exact ⟨isUsageError_usageExit cmd, isUsageError_usageExit cmd, isUsageError_usageExit cmd,
      isUsageError_usageExit cmd⟩
  · intro h
    rw [run_volumeListAction_mismatch g cmd args h]
    exact isUsageError_usageExit cmd

/-- Witness of C1: two arguments are a mismatch for all five handlers. -/
theorem arg_count_mismatch_is_usage_error_witness :
    (["a", "b"].length ≠ 1 →
      IsUsageError volumeCreateCommand (run (volumeCreateAction .bits64
        (globals "p1" "foo" "bar" "az1" (okClient {})) volumeCreateCommand ["a", "b"])) ∧
      IsUsageError volumeCreateCommand (run (volumeShowAction
        (globals "p1" "foo" "bar" "az1" (okClient {})) volumeCreateCommand ["a", "b"])) ∧
      IsUsageError volumeCreateCommand (run (volumeDeleteAction
        (globals "p1" "foo" "bar" "az1" (okClient {})) volumeCreateCommand ["a", "b"])) ∧
      IsUsageError volumeCreateCommand (run (volumeUpdateAction
        (globals "p1" "foo" "bar" "az1" (okClient {})) volumeCreateCommand ["a", "b"]))) ∧
    (["a", "b"].length ≠ 0 →
      IsUsageError volumeCreateCommand (run (volumeListAction
        (globals "p1" "foo" "bar" "az1" (okClient {})) volumeCreateCommand ["a", "b"]))) :=
  arg_count_mismatch_is_usage_error .bits64 (globals "p1" "foo" "bar" "az1" (okClient {}))
    volumeCreateCommand ["a", "b"]

/-- C7: with one argument `id`, delete calls `DeleteVolume(id, spec)` with a spec
that carries only the profile flag, and update calls `UpdateVolume(id, spec)`
with a spec that carries only the name and description flags; every other
field is at its zero value, whatever the other flag variables hold. -/
theorem delete_update_request_fields (g : Globals) (cmd : Command) (id : String) :
    (run (volumeDeleteAction g cmd [id])).world.calls =
      [.DeleteVolume id
        { Id := "", CreatedAt := "", UpdatedAt := "", Name := "", Description := "", Size := 0,
          AvailabilityZone := "", Status := "", PoolId := "", ProfileId := g.profileId,
          Metadata := [] }] ∧
    (run (volumeUpdateAction g cmd [id])).world.calls =
      [.UpdateVolume id
        { Id := "", CreatedAt := "", UpdatedAt := "", Name := g.volName,
          Description := g.volDesp, Size := 0, AvailabilityZone := "", Status := "",
          PoolId := "", ProfileId := "", Metadata := [] }] := by
  rw [run_volumeDeleteAction, run_volumeUpdateAction]
  constructor <;> split <;> rfl

/-- C6: on one argument `id`, when `DeleteVolume` returns no error delete writes
exactly `Delete volume(<id>) success.` and a newline to standard output, nothing
to the error stream, and ends with exit code 0; when `DeleteVolume` returns an
error it writes the error to the error stream, nothing to standard output, and
exits with code 1. -/
theorem delete_success_message (g : Globals) (cmd : Command) (id : String) :
    (g.client.DeleteVolume id { ProfileId := g.profileId } = none →
      (run (volumeDeleteAction g cmd [id])).world.stdout =
        [.text ("Delete volume(" ++ id ++ ") success.\n")] ∧
      (run (volumeDeleteAction g cmd [id])).world.stderr = [] ∧
      (run (volumeDeleteAction g cmd [id])).exitCode = 0) ∧
    (∀ msg, g.client.DeleteVolume id { ProfileId := g.profileId } = some msg →
      (run (volumeDeleteAction g cmd [id])).world.stderr = [.line msg] ∧
      (run (volumeDeleteAction g cmd [id])).world.stdout = [] ∧
      (run (volumeDeleteAction g cmd [id])).exitCode = 1) := by
  rw [run_volumeDeleteAction]
  constructor
  · intro h
    rw [h, Sprintf_delete]
    exact ⟨rfl, rfl, rfl⟩
  · intro msg h
    rw [h]
    exact ⟨rfl, rfl, rfl⟩

/-- Witness of C6: a client that succeeds and a client that fails, on the id
`v1` and on the empty id. -/
theorem delete_success_message_witness :
    (run (volumeDeleteAction (globals "p1" "" "" "" (okClient {})) volumeDeleteCommand
        ["v1"])).world.stdout = [.text "Delete volume(v1) success.\n"] ∧
    (run (volumeDeleteAction (globals "p1" "" "" "" (okClient {})) volumeDeleteCommand
        [""])).world.stdout = [.text "Delete volume() success.\n"] ∧
    (run (volumeDeleteAction (globals "p1" "" "" "" (errClient "not found"))
        volumeDeleteCommand ["v1"])).world.stderr = [.line "not found"] ∧
    (run (volumeDeleteAction (globals "p1" "" "" "" (errClient "not found"))
        volumeDeleteCommand ["v1"])).exitCode = 1 :=
  ⟨((delete_success_message (globals "p1" "" "" "" (okClient {})) volumeDeleteCommand
      "v1").1 rfl).1,
   ((delete_success_message (globals "p1" "" "" "" (okClient {})) volumeDeleteCommand
      "").1 rfl).1,
   ((delete_success_message (globals "p1" "" "" "" (errClient "not found"))
      volumeDeleteCommand "v1").2 "not found" rfl).1,
   ((delete_success_message (globals "p1" "" "" "" (errClient "not found"))
      volumeDeleteCommand "v1").2 "not found" rfl).2.2⟩

/-- C8: on a successful run create, show and update hand to `PrintDict` the record
of the client, the same list of 11 distinct field names in the order of the data
model, and an empty `FormatterList`; list hands to `PrintList` the records of the
client and that list without `CreatedAt`, `UpdatedAt` and `Metadata`, the order
of the other 8 names kept. -/
theorem printed_key_lists (p : Platform) (g : Globals) (cmd : Command) :
    ∃ keys : KeyList,
      keys = ["Id", "CreatedAt", "UpdatedAt", "Name", "Description", "Size",
        "AvailabilityZone", "Status", "PoolId", "ProfileId", "Metadata"] ∧
      keys.length = 11 ∧ keys.Nodup ∧
      (keys.filter (fun k => decide (k ∉ ["CreatedAt", "UpdatedAt", "Metadata"]))).length = 8 ∧
      (∀ s n resp, Atoi p s = .ok n →
        g.client.CreateVolume
          { Name := g.volName, Description := g.volDesp, AvailabilityZone := g.volAz,
            Size := n, ProfileId := g.profileId } = .ok resp →
        (run (volumeCreateAction p g cmd [s])).world.stdout = [.dict resp keys []]) ∧
      (∀ id resp, g.client.GetVolume id = .ok resp →
        (run (volumeShowAction g cmd [id])).world.stdout = [.dict resp keys []]) ∧
      (∀ id resp,
        g.client.UpdateVolume id { Name := g.volName, Description := g.volDesp } = .ok resp →
        (run (volumeUpdateAction g cmd [id])).world.stdout = [.dict resp keys []]) ∧
      (∀ resp, g.client.ListVolumes = .ok resp →
        (run (volumeListAction g cmd [])).world.stdout =
          [.list resp
            (keys.filter (fun k => decide (k ∉ ["CreatedAt", "UpdatedAt", "Metadata"]))) []]) := by
  refine ⟨_, rfl, by decide, by decide, by decide, ?_, ?_, ?_, ?_⟩
  · intro s n resp h1 h2
    rw [run_volumeCreateAction, h1]
    simp only []
    rw [h2]
    rfl
  · intro id resp h
    rw [run_volumeShowAction, h]
    rfl
  · intro id resp h
    rw [run_volumeUpdateAction, h]
    rfl
  · intro resp h
    rw [run_volumeListAction, h]
    have hk : (["Id", "CreatedAt", "UpdatedAt", "Name", "Description", "Size",
        "AvailabilityZone", "Status", "PoolId", "ProfileId", "Metadata"].filter
          (fun k => decide (k ∉ ["CreatedAt", "UpdatedAt", "Metadata"]))) =
        ["Id", "Name", "Description", "Size", "AvailabilityZone", "Status", "PoolId",
          "ProfileId"] := by decide
    rw [hk]
    rfl

/-- C10: on a valid argument list, when the one client call returns an error the
handler writes the message of that error to the error stream, nothing to
standard output (no `PrintDict`, no `PrintList`), makes no other client call and
exits with code 1. -/
theorem client_error_is_terminal (p : Platform) (g : Globals) (cmd : Command) :
    (∀ s n msg, Atoi p s = .ok n →
      g.client.CreateVolume
        { Name := g.volName, Description := g.volDesp, AvailabilityZone := g.volAz,
          Size := n, ProfileId := g.profileId } = .error msg →
      IsCallFailure msg
        (.CreateVolume
          { Name := g.volName, Description := g.volDesp, AvailabilityZone := g.volAz,
            Size := n, ProfileId := g.profileId })
        (run (volumeCreateAction p g cmd [s]))) ∧
    (∀ id msg, g.client.GetVolume id = .error msg →
      IsCallFailure msg (.GetVolume id) (run (volumeShowAction g cmd [id]))) ∧
    (∀ msg, g.client.ListVolumes = .error msg →
      IsCallFailure msg .ListVolumes (run (volumeListAction g cmd []))) ∧
    (∀ id msg, g.client.DeleteVolume id { ProfileId := g.profileId } = some msg →
      IsCallFailure msg (.DeleteVolume id { ProfileId := g.profileId })
        (run (volumeDeleteAction g cmd [id]))) ∧
    (∀ id msg,
      g.client.UpdateVolume id { Name := g.volName, Description := g.volDesp } = .error msg →
      IsCallFailure msg (.UpdateVolume id { Name := g.volName, Description := g.volDesp })
        (run (volumeUpdateAction g cmd [id]))) := by
  refine ⟨?_, ?_, ?_, ?_, ?_⟩
  · intro s n msg h1 h2
    rw [run_volumeCreateAction, h1]
    simp only []
    rw [h2]
    exact isCallFailure_callFailureExit _ _
  · intro id msg h
    rw [run_volumeShowAction, h]
    exact isCallFailure_callFailureExit _ _
  · intro msg h
    rw [run_volumeListAction, h]
    exact isCallFailure_callFailureExit _ _
  · intro id msg h
    rw [run_volumeDeleteAction, h]
    exact isCallFailure_callFailureExit _ _
  · intro id msg h
    rw [run_volumeUpdateAction, h]
    exact isCallFailure_callFailureExit _ _

/-- Witness of C10: the five handlers against a client whose every call fails
with the message `boom`. -/
theorem client_error_is_terminal_witness :
    IsCallFailure "boom"
      (.CreateVolume
        { Name := "foo", Description := "bar", AvailabilityZone := "az1", Size := 100,
          ProfileId := "p1" })
      (run (volumeCreateAction .bits64 (globals "p1" "foo" "bar" "az1" (errClient "boom"))
        volumeCreateCommand ["100"])) ∧
    IsCallFailure "boom" (.GetVolume "v1")
      (run (volumeShowAction (globals "p1" "foo" "bar" "az1" (errClient "boom"))
        volumeCreateCommand ["v1"])) ∧
    IsCallFailure "boom" .ListVolumes
      (run (volumeListAction (globals "p1" "foo" "bar" "az1" (errClient "boom"))
        volumeCreateCommand [])) ∧
    IsCallFailure "boom" (.DeleteVolume "v1" { ProfileId := "p1" })
      (run (volumeDeleteAction (globals "p1" "foo" "bar" "az1" (errClient "boom"))
        volumeCreateCommand ["v1"])) ∧
    IsCallFailure "boom" (.UpdateVolume "v1" { Name := "foo", Description := "bar" })
      (run (volumeUpdateAction (globals "p1" "foo" "bar" "az1" (errClient "boom"))
        volumeCreateCommand ["v1"])) :=
  have h := client_error_is_terminal .bits64 (globals "p1" "foo" "bar" "az1" (errClient "boom"))
    volumeCreateCommand
  ⟨h.1 "100" 100 "boom" rfl rfl, h.2.1 "v1" "boom" rfl, h.2.2.1 "boom" rfl,
    h.2.2.2.1 "v1" "boom" rfl, h.2.2.2.2 "v1" "boom" rfl⟩

/-- C5: every handler ends with exit code 0 or 1, and with 0 exactly when the
argument count is the expected one, the size parses (create only) and the client
call returns no error; the bare `volume` handler always exits with code 1. -/
theorem exit_code_zero_iff_success (p : Platform) (g : Globals) (cmd : Command)
    (args : List String) :
    (ExitsZeroOrOne (run (volumeCreateAction p g cmd args)) ∧
      ((run (volumeCreateAction p g cmd args)).exitCode = 0 ↔
        ∃ s n resp, args = [s] ∧ Atoi p s = .ok n ∧
          g.client.CreateVolume
            { Name := g.volName, Description := g.volDesp, AvailabilityZone := g.volAz,
              Size := n, ProfileId := g.profileId } = .ok resp)) ∧
    (ExitsZeroOrOne (run (volumeShowAction g cmd args)) ∧
      ((run (volumeShowAction g cmd args)).exitCode = 0 ↔
        ∃ id resp, args = [id] ∧ g.client.GetVolume id = .ok resp)) ∧
    (ExitsZeroOrOne (run (volumeListAction g cmd args)) ∧
      ((run (volumeListAction g cmd args)).exitCode = 0 ↔
        args = [] ∧ ∃ resp, g.client.ListVolumes = .ok resp)) ∧
    (ExitsZeroOrOne (run (volumeDeleteAction g cmd args)) ∧
      ((run (volumeDeleteAction g cmd args)).exitCode = 0 ↔
        ∃ id, args = [id] ∧ g.client.DeleteVolume id { ProfileId := g.profileId } = none)) ∧
    (ExitsZeroOrOne (run (volumeUpdateAction g cmd args)) ∧
      ((run (volumeUpdateAction g cmd args)).exitCode = 0 ↔
        ∃ id resp, args = [id] ∧
          g.client.UpdateVolume id { Name := g.volName, Description := g.volDesp } =
            .ok resp)) ∧
    (run (volumeAction cmd args)).exitCode = 1 := by
  refine ⟨?_, ?_, ?_, ?_, ?_, ?_⟩
  · by_cases hlen : args.length = 1
    · obtain ⟨s, rfl⟩ := List.length_eq_one.mp hlen
      rw [run_volumeCreateAction]
      cases h1 : Atoi p s with
      | error e => simp [ExitsZeroOrOne, Outcome.exitCode, h1]
      | ok n =>
        cases h2 : g.client.CreateVolume
            { Name := g.volName, Description := g.volDesp, AvailabilityZone := g.volAz,
              Size := n, ProfileId := g.profileId } <;>
          simp [ExitsZeroOrOne, Outcome.exitCode, callFailureExit, h1, h2]
    · rw [run_volumeCreateAction_mismatch p g cmd args hlen]
      have hne := (length_ne_one_iff args).mp hlen
      simp [ExitsZeroOrOne, Outcome.exitCode, usageExit, hne]
  · by_cases hlen : args.length = 1
    · obtain ⟨s, rfl⟩ := List.length_eq_one.mp hlen
      rw [run_volumeShowAction]
      cases h2 : g.client.GetVolume s <;>
        simp [ExitsZeroOrOne, Outcome.exitCode, callFailureExit, h2]
    · rw [run_volumeShowAction_mismatch g cmd args hlen]
      have hne := (length_ne_one_iff args).mp hlen
      simp [ExitsZeroOrOne, Outcome.exitCode, usageExit, hne]
  · by_cases hlen : args.length = 0
    · obtain rfl := List.length_eq_zero.mp hlen
      rw [run_volumeListAction]
      cases h2 : g.client.ListVolumes <;>
        simp [ExitsZeroOrOne, Outcome.exitCode, callFailureExit]
    · rw [run_volumeListAction_mismatch g cmd args hlen]
      have hne : args ≠ [] := fun h => hlen (by simp [h])
      simp [ExitsZeroOrOne, Outcome.exitCode, usageExit, hne]
  · by_cases hlen : args.length = 1
    · obtain ⟨s, rfl⟩ := List.length_eq_one.mp hlen
      rw [run_volumeDeleteAction]
      cases h2 : g.client.DeleteVolume s { ProfileId := g.profileId } <;>
        simp [ExitsZeroOrOne, Outcome.exitCode, callFailureExit, h2]
    · rw [run_volumeDeleteAction_mismatch g cmd args hlen]
      have hne := (length_ne_one_iff args).mp hlen
      simp [ExitsZeroOrOne, Outcome.exitCode, usageExit, hne]
  · by_cases hlen : args.length = 1
    · obtain ⟨s, rfl⟩ := List.length_eq_one.mp hlen
      rw [run_volumeUpdateAction]
      cases h2 : g.client.UpdateVolume s { Name := g.volName, Description := g.volDesp } <;>
        simp [ExitsZeroOrOne, Outcome.exitCode, callFailureExit, h2]
    · rw [run_volumeUpdateAction_mismatch g cmd args hlen]
      have hne := (length_ne_one_iff args).mp hlen
      simp [ExitsZeroOrOne, Outcome.exitCode, usageExit, hne]
  · rw [run_volumeAction]
    rfl

/-- Witness of C5: the five handlers exit with code 0 on the expected argument
list against a client that succeeds. -/
theorem exit_code_zero_iff_success_witness :
    (run (volumeCreateAction .bits64 (globals "p1" "foo" "bar" "az1" (okClient {}))
      volumeCreateCommand ["100"])).exitCode = 0 ∧
    (run (volumeShowAction (globals "p1" "foo" "bar" "az1" (okClient {}))
      volumeCreateCommand ["100"])).exitCode = 0 ∧
    (run (volumeDeleteAction (globals "p1" "foo" "bar" "az1" (okClient {}))
      volumeCreateCommand ["100"])).exitCode = 0 ∧
    (run (volumeUpdateAction (globals "p1" "foo" "bar" "az1" (okClient {}))
      volumeCreateCommand ["100"])).exitCode = 0 ∧
    (run (volumeListAction (globals "p1" "foo" "bar" "az1" (okClient {}))
      volumeCreateCommand [])).exitCode = 0 :=
  have h := exit_code_zero_iff_success .bits64 (globals "p1" "foo" "bar" "az1" (okClient {}))
    volumeCreateCommand ["100"]
  have h0 := exit_code_zero_iff_success .bits64 (globals "p1" "foo" "bar" "az1" (okClient {}))
    volumeCreateCommand []
  ⟨h.1.2.mpr ⟨"100", 100, {}, rfl, rfl, rfl⟩, h.2.1.2.mpr ⟨"100", {}, rfl, rfl⟩,
    h.2.2.2.1.2.mpr ⟨"100", rfl, rfl⟩, h.2.2.2.2.1.2.mpr ⟨"100", {}, rfl, rfl⟩,
    h0.2.2.1.2.mpr ⟨rfl, [{}], rfl⟩⟩

/-- Witness of C8: the key lists printed against a client that returns the empty
record. -/
theorem printed_key_lists_witness :
    (run (volumeShowAction (globals "p1" "foo" "bar" "az1" (okClient {}))
      volumeShowCommand ["v1"])).world.stdout =
      [.dict {} ["Id", "CreatedAt", "UpdatedAt", "Name", "Description", "Size",
        "AvailabilityZone", "Status", "PoolId", "ProfileId", "Metadata"] []] ∧
    (run (volumeListAction (globals "p1" "foo" "bar" "az1" (okClient {}))
      volumeListCommand [])).world.stdout =
      [.list [{}] ["Id", "Name", "Description", "Size", "AvailabilityZone", "Status",
        "PoolId", "ProfileId"] []] := by
  obtain ⟨keys, hk, -, -, -, -, hshow, -, hlist⟩ :=
    printed_key_lists .bits64 (globals "p1" "foo" "bar" "az1" (okClient {})) volumeShowCommand
  subst hk
  exact ⟨hshow "v1" {} rfl, hlist [{}] rfl⟩

/-! ## The claims on the size argument -/

/-- C2: on the decimal text of an integer `n` of the platform `int` range create
calls `CreateVolume` exactly once, with a request whose `Size` is `n`, whose
`Name`, `Description`, `AvailabilityZone` and `ProfileId` are the four flags and
whose every other field is at its zero value. -/
theorem create_request_fields (p : Platform) (g : Globals) (cmd : Command) (n : Int)
    (hlo : -(2 ^ (p.IntSize - 1) : Int) ≤ n) (hhi : n < 2 ^ (p.IntSize - 1)) :
    (run (volumeCreateAction p g cmd [toString n])).world.calls =
      [.CreateVolume
        { Id := "", CreatedAt := "", UpdatedAt := "", Name := g.volName,
          Description := g.volDesp, Size := n, AvailabilityZone := g.volAz, Status := "",
          PoolId := "", ProfileId := g.profileId, Metadata := [] }] := by
  rw [run_volumeCreateAction, Atoi_toString p n hlo hhi]
  simp only []
  split <;> rfl

/-- Witness of C2: the invocation
`create "100" --name foo --description bar --az az1 --profile p1`. -/
theorem create_request_fields_witness :
    -(2 ^ (Platform.bits64.IntSize - 1) : Int) ≤ 100 ∧
    (100 : Int) < 2 ^ (Platform.bits64.IntSize - 1) ∧
    (run (volumeCreateAction .bits64 (globals "p1" "foo" "bar" "az1" (okClient {}))
      volumeCreateCommand ["100"])).world.calls =
      [.CreateVolume
        { Id := "", CreatedAt := "", UpdatedAt := "", Name := "foo", Description := "bar",
          Size := 100, AvailabilityZone := "az1", Status := "", PoolId := "",
          ProfileId := "p1", Metadata := [] }] :=
  ⟨by decide, by decide,
    create_request_fields .bits64 (globals "p1" "foo" "bar" "az1" (okClient {}))
      volumeCreateCommand 100 (by decide) (by decide)⟩

/-- C3, as stated, fails: on the argument `-5` create calls `CreateVolume` with a
request whose `Size` is `-5`. -/
theorem create_negative_size_counterexample :
    ∃ vol, (run (volumeCreateAction .bits64 (globals "p1" "foo" "bar" "az1" (okClient {}))
        volumeCreateCommand ["-5"])).world.calls = [.CreateVolume vol] ∧
      vol.Size = -5 ∧ vol.Size < 0 :=
  ⟨{ Name := "foo", Description := "bar", AvailabilityZone := "az1", Size := -5,
     ProfileId := "p1" }, rfl, rfl, by decide⟩

/-- C3, amended: whenever create calls `CreateVolume`, there is exactly one
positional argument, the `Size` of the request is the integer that `Atoi` reads
from it, it lies in the range of the platform `int`, and it is non-negative
unless the argument begins with a minus sign. -/
theorem create_size_is_parsed_int (p : Platform) (g : Globals) (cmd : Command)
    (args : List String) (vol : VolumeSpec)
    (h : ClientCall.CreateVolume vol ∈ (run (volumeCreateAction p g cmd args)).world.calls) :
    ∃ s, args = [s] ∧ Atoi p s = .ok vol.Size ∧
      -(2 ^ (p.IntSize - 1) : Int) ≤ vol.Size ∧ vol.Size < 2 ^ (p.IntSize - 1) ∧
      (s.data.head? ≠ some '-' → 0 ≤ vol.Size) := by
  by_cases hlen : args.length = 1
  · obtain ⟨s, rfl⟩ := List.length_eq_one.mp hlen
    rw [run_volumeCreateAction] at h
    cases h1 : Atoi p s with
    | error e =>
      rw [h1] at h
      simp [Outcome.world] at h
    | ok n =>
      rw [h1] at h
      have hv : vol.Size = n := by
        simp only [] at h
        split at h <;> simp [Outcome.world, callFailureExit] at h <;> rw [h]
      rw [hv]
      exact ⟨s, rfl, h1, (Atoi_ok_range p s n h1).1, (Atoi_ok_range p s n h1).2,
        Atoi_ok_nonneg p s n h1⟩
  · rw [run_volumeCreateAction_mismatch p g cmd args hlen] at h
    simp [usageExit, Outcome.world] at h

/-- Witness of C3, amended: the request of `create "100"`. -/
theorem create_size_is_parsed_int_witness :
    ∃ s, ["100"] = [s] ∧ Atoi .bits64 s = .ok 100 ∧
      -(2 ^ (Platform.bits64.IntSize - 1) : Int) ≤ 100 ∧
      (100 : Int) < 2 ^ (Platform.bits64.IntSize - 1) ∧
      (s.data.head? ≠ some '-' → (0 : Int) ≤ 100) :=
  create_size_is_parsed_int .bits64 (globals "p1" "foo" "bar" "az1" (okClient {}))
    volumeCreateCommand ["100"]
    { Name := "foo", Description := "bar", AvailabilityZone := "az1", Size := 100,
      ProfileId := "p1" }
    (by decide)

/-- C4: on one argument that `Atoi` rejects create ends the process with a
non-zero exit code and makes no client call, whatever the flags. -/
theorem create_unparseable_size_exits (p : Platform) (g : Globals) (cmd : Command)
    (s : String) (e : NumError) (h : Atoi p s = .error e) :
    (run (volumeCreateAction p g cmd [s])).exitCode ≠ 0 ∧
    (run (volumeCreateAction p g cmd [s])).world.calls = [] := by
  rw [run_volumeCreateAction, h]
  exact ⟨by simp [Outcome.exitCode], rfl⟩

/-- Witness of C4: letters, the empty string, a space, a decimal point, an
exponent, and digits outside the `int` range. -/
theorem create_unparseable_size_exits_witness :
    (Atoi .bits64 "abc" = .error ⟨"Atoi", "abc", .ErrSyntax⟩ ∧
      (run (volumeCreateAction .bits64 (globals "p1" "foo" "bar" "az1" (okClient {}))
        volumeCreateCommand ["abc"])).exitCode ≠ 0 ∧
      (run (volumeCreateAction .bits64 (globals "p1" "foo" "bar" "az1" (okClient {}))
        volumeCreateCommand ["abc"])).world.calls = []) ∧
    (run (volumeCreateAction .bits64 (globals "p1" "foo" "bar" "az1" (okClient {}))
      volumeCreateCommand [""])).world.calls = [] ∧
    (run (volumeCreateAction .bits64 (globals "p1" "foo" "bar" "az1" (okClient {}))
      volumeCreateCommand [" 100"])).world.calls = [] ∧
    (run (volumeCreateAction .bits64 (globals "p1" "foo" "bar" "az1" (okClient {}))
      volumeCreateCommand ["1.5"])).world.calls = [] ∧
    (run (volumeCreateAction .bits64 (globals "p1" "foo" "bar" "az1" (okClient {}))
      volumeCreateCommand ["1e3"])).world.calls = [] ∧
    (run (volumeCreateAction .bits64 (globals "p1" "foo" "bar" "az1" (okClient {}))
      volumeCreateCommand ["9223372036854775808"])).world.calls = [] ∧
    (run (volumeCreateAction .bits32 (globals "p1" "foo" "bar" "az1" (okClient {}))
      volumeCreateCommand ["2147483648"])).world.calls = [] :=
  ⟨⟨rfl, create_unparseable_size_exits .bits64 (globals "p1" "foo" "bar" "az1" (okClient {}))
      volumeCreateCommand "abc" ⟨"Atoi", "abc", .ErrSyntax⟩ rfl⟩,
   (create_unparseable_size_exits .bits64 (globals "p1" "foo" "bar" "az1" (okClient {}))
      volumeCreateCommand "" ⟨"Atoi", "", .ErrSyntax⟩ rfl).2,
   (create_unparseable_size_exits .bits64 (globals "p1" "foo" "bar" "az1" (okClient {}))
      volumeCreateCommand " 100" ⟨"Atoi", " 100", .ErrSyntax⟩ rfl).2,
   (create_unparseable_size_exits .bits64 (globals "p1" "foo" "bar" "az1" (okClient {}))
      volumeCreateCommand "1.5" ⟨"Atoi", "1.5", .ErrSyntax⟩ rfl).2,
   (create_unparseable_size_exits .bits64 (globals "p1" "foo" "bar" "az1" (okClient {}))
      volumeCreateCommand "1e3" ⟨"Atoi", "1e3", .ErrSyntax⟩ rfl).2,
   (create_unparseable_size_exits .bits64 (globals "p1" "foo" "bar" "az1" (okClient {}))
      volumeCreateCommand "9223372036854775808"
      ⟨"Atoi", "9223372036854775808", .ErrRange⟩ rfl).2,
   (create_unparseable_size_exits .bits32 (globals "p1" "foo" "bar" "az1" (okClient {}))
      volumeCreateCommand "2147483648" ⟨"Atoi", "2147483648", .ErrRange⟩ rfl).2⟩

/-- C9, as stated, fails: on the argument `abc` create writes the fatal log
message only; the usage text is not written. -/
theorem create_parse_failure_no_usage_counterexample :
    (run (volumeCreateAction .bits64 (globals "p1" "foo" "bar" "az1" (okClient {}))
      volumeCreateCommand ["abc"])).world.stderr =
      [.fatal "error parsing size %s: %+v" "abc" ⟨"Atoi", "abc", .ErrSyntax⟩] ∧
    StderrEvent.usage volumeCreateCommand ∉
      (run (volumeCreateAction .bits64 (globals "p1" "foo" "bar" "az1" (okClient {}))
        volumeCreateCommand ["abc"])).world.stderr :=
  ⟨rfl, by decide⟩

/-- C9, amended: with an argument count other than 1 create writes the fixed
error line and the usage text to the error stream, exits with code 1 and makes
no client call; on one argument that `Atoi` rejects it writes the fatal log
message, and no usage text, to the error stream, nothing to standard output,
exits with code 1 and makes no client call. -/
theorem create_validation_failures (p : Platform) (g : Globals) (cmd : Command)
    (args : List String) :
    (args.length ≠ 1 → IsUsageError cmd (run (volumeCreateAction p g cmd args))) ∧
    (∀ s e, args = [s] → Atoi p s = .error e →
      (run (volumeCreateAction p g cmd args)).world.stderr =
        [.fatal "error parsing size %s: %+v" s e] ∧
      (run (volumeCreateAction p g cmd args)).world.stdout = [] ∧
      (run (volumeCreateAction p g cmd args)).exitCode = 1 ∧
      (run (volumeCreateAction p g cmd args)).world.calls = []) := by
  constructor
  · intro h
    rw [run_volumeCreateAction_mismatch p g cmd args h]
    exact isUsageError_usageExit cmd
  · intro s e hs h
    subst hs
    rw [run_volumeCreateAction, h]
    exact ⟨rfl, rfl, rfl, rfl⟩

/-- Witness of C9, amended: no argument, and the argument `abc`. -/
theorem create_validation_failures_witness :
    IsUsageError volumeCreateCommand
      (run (volumeCreateAction .bits64 (globals "p1" "foo" "bar" "az1" (okClient {}))
        volumeCreateCommand [])) ∧
    (run (volumeCreateAction .bits64 (globals "p1" "foo" "bar" "az1" (okClient {}))
      volumeCreateCommand ["abc"])).exitCode = 1 :=
  ⟨(create_validation_failures .bits64 (globals "p1" "foo" "bar" "az1" (okClient {}))
      volumeCreateCommand []).1 (by decide),
   ((create_validation_failures .bits64 (globals "p1" "foo" "bar" "az1" (okClient {}))
      volumeCreateCommand ["abc"]).2 "abc" ⟨"Atoi", "abc", .ErrSyntax⟩ rfl rfl).2.2.1⟩

end Osdsctl
